import Mathlib

/-!
Shallow embedding of the GenProjectAI recommender (src/recomen.py, the
console / stars-descending variant, and src/unnamed/part_000, the web /
random-order variant).  Machine strings are ASCII here; `String.toLower`
and `String.trim` stand for Python's `str.lower()` / `str.strip()` on the
ASCII fragment the program manipulates.
-/

namespace GenProject

/-! ## Python string primitives on the ASCII fragment -/

/-- Python `str.lower()` (ASCII fragment). -/
def pyLower (s : String) : String := ⟨s.data.map Char.toLower⟩

/-- Python `str.strip()` (ASCII whitespace fragment). -/
def pyStrip (s : String) : String :=
  ⟨((s.data.dropWhile Char.isWhitespace).reverse.dropWhile Char.isWhitespace).reverse⟩

/-- Decidable equality on `Except`, to evaluate runs of the embedding. -/
def exceptDecEq {ε α : Type} [DecidableEq ε] [DecidableEq α] :
    (a b : Except ε α) → Decidable (a = b)
  | .error e, .error f =>
    if h : e = f then .isTrue (by rw [h]) else .isFalse (by intro hh; cases hh; exact h rfl)
  | .error _, .ok _ => .isFalse (by intro hh; cases hh)
  | .ok _, .error _ => .isFalse (by intro hh; cases hh)
  | .ok a, .ok b =>
    if h : a = b then .isTrue (by rw [h]) else .isFalse (by intro hh; cases hh; exact h rfl)

instance {ε α : Type} [DecidableEq ε] [DecidableEq α] : DecidableEq (Except ε α) :=
  exceptDecEq

/-! ## A fragment of Python regular expressions

`pandas.Series.str.contains(pat, na=False)` compiles `pat` with Python's
`re` module (`regex=True` is the default) and reports `re.search`.  We
model the fragment of `re` consisting of literal characters, `.`
(any character except newline) and the postfix quantifiers `*`, `+`, `?`.
Patterns using any other special character (`^ $ { } [ ] \ | ( )`) are
rejected by this model with an error; a quantifier with nothing to repeat
or a doubly-quantified atom (as in `c++`) is a compile error exactly as in
Python (`re.error`). -/

inductive BAtom where
  | lit (c : Char)
  | dot
deriving DecidableEq

inductive Quant where
  | one
  | star
  | plus
  | opt
deriving DecidableEq

structure Piece where
  atom : BAtom
  quant : Quant
deriving DecidableEq

/-- The characters Python's `re` treats specially. -/
def specialChars : List Char :=
  ['.', '^', '$', '*', '+', '?', '{', '}', '[', ']', '\\', '|', '(', ')']

/-- A character with no special meaning in a pattern. -/
def plainChar (c : Char) : Bool := !(specialChars.contains c)

def quantOf (c : Char) : Quant :=
  if c = '*' then .star else if c = '+' then .plus else .opt

/-- Pattern compiler for the modelled fragment (accumulator reversed). -/
def parseLoop : List Char → List Piece → Except String (List Piece)
  | [], acc => .ok acc.reverse
  | c :: cs, acc =>
    if c = '.' then
      parseLoop cs (⟨.dot, .one⟩ :: acc)
    else if c = '*' ∨ c = '+' ∨ c = '?' then
      match acc with
      | [] => .error "nothing to repeat"
      | p :: rest =>
        match p.quant with
        | .one => parseLoop cs (⟨p.atom, quantOf c⟩ :: rest)
        | _ => .error "multiple repeat"
    else if ['^', '$', '{', '}', '[', ']', '\\', '|', '(', ')'].contains c then
      .error "unsupported construct"
    else
      parseLoop cs (⟨.lit c, .one⟩ :: acc)

def parsePattern (s : String) : Except String (List Piece) :=
  parseLoop s.data []

def bmatch : BAtom → Char → Bool
  | .lit c, d => c = d
  | .dot, d => d ≠ '\n'

/-- Zero or more characters accepted by `am`, then continue with `k`. -/
def starLoop (am : Char → Bool) (k : List Char → Bool) : List Char → Bool
  | [] => k []
  | c :: cs => k (c :: cs) || (am c && starLoop am k cs)

/-- Does the piece list match some prefix of `s`?  (Python `re.match`.) -/
def matchHere : List Piece → List Char → Bool
  | [], _ => true
  | ⟨a, .one⟩ :: ps, s =>
    (match s with
     | c :: cs => bmatch a c && matchHere ps cs
     | [] => false)
  | ⟨a, .opt⟩ :: ps, s =>
    (match s with
     | c :: cs => bmatch a c && matchHere ps cs
     | [] => false) || matchHere ps s
  | ⟨a, .plus⟩ :: ps, s =>
    (match s with
     | c :: cs => bmatch a c && starLoop (bmatch a) (matchHere ps) cs
     | [] => false)
  | ⟨a, .star⟩ :: ps, s => starLoop (bmatch a) (matchHere ps) s

/-- Does the pattern match starting at some position?  (Python `re.search`.) -/
def searchFrom (ps : List Piece) (s : List Char) : Bool :=
  matchHere ps s ||
    match s with
    | [] => false
    | _ :: cs => searchFrom ps cs

def regexSearch (ps : List Piece) (s : String) : Bool :=
  searchFrom ps s.data

/-! ## Literal substring containment (the spec's wording)

Modelled from the spec: "row is included iff its language field,
lower-cased, contains tech_stack as a substring".  Used to compare the
code's regex-based mask against the spec's literal-substring reading. -/

def leadsChars : List Char → List Char → Bool
  | [], _ => true
  | _ :: _, [] => false
  | p :: ps, c :: cs => p = c && leadsChars ps cs

def containsChars (s pat : List Char) : Bool :=
  leadsChars pat s ||
    match s with
    | [] => false
    | _ :: cs => containsChars cs pat

/-- `strContains s pat`: `pat` occurs in `s` as a contiguous substring. -/
def strContains (s pat : String) : Bool :=
  containsChars s.data pat.data

/-! ## Project rows (the tabular file's schema) -/

structure Row where
  name : String
  description : Option String
  stars : Nat
  language : Option String
  repoUrl : String
deriving DecidableEq

/-- One cell of the boolean mask
`data['Language'].str.lower().str.contains(tech_stack, na=False)`:
an absent language (NaN) yields `false` via `na=False`. -/
def langMatches (ps : List Piece) : Option String → Bool
  | none => false
  | some l => regexSearch ps (pyLower l)

/-! ## Stable descending sort by star count

`DataFrame.nlargest(n, 'Stars')` keeps the first occurrences among ties
and orders the output by descending star count, ties in original order:
a stable descending sort truncated to `n`. -/

def insertRow (x : Row) : List Row → List Row
  | [] => [x]
  | y :: ys => if y.stars ≤ x.stars then x :: y :: ys else y :: insertRow x ys

def sortStarsDesc : List Row → List Row
  | [] => []
  | x :: xs => insertRow x (sortStarsDesc xs)

/-! ## The two selector variants -/

/-- `recommend_projects` of src/recomen.py: filter by the regex mask,
then `nlargest(top_n, 'Stars')`.  A pattern the regex engine rejects
raises (`.error`), exactly as `re.error` propagates out of pandas. -/
def recommend_projects (data : List Row) (tech_stack : String) (top_n : Nat) :
    Except String (List Row) :=
  if data.isEmpty then .ok []
  else
    match parsePattern tech_stack with
    | .error e => .error e
    | .ok ps =>
      let filtered := data.filter (fun r => langMatches ps r.language)
      .ok ((sortStarsDesc filtered).take top_n)

/-- `recommend_projects` of src/unnamed/part_000: filter by the same mask,
shuffle (`sample(frac=1)`, modelled by an arbitrary `shuffle` function
supplied as a parameter), then `head(min(top_n, len))`. -/
def recommend_projects_random (shuffle : List Row → List Row)
    (data : List Row) (tech_stack : String) (top_n : Nat) :
    Except String (List Row) :=
  if data.isEmpty then .ok []
  else
    match parsePattern tech_stack with
    | .error e => .error e
    | .ok ps =>
      let filtered := data.filter (fun r => langMatches ps r.language)
      if filtered.isEmpty then .ok []
      else
        let shuffled := shuffle filtered
        .ok (shuffled.take (min top_n shuffled.length))

/-! ## Preference validation (`validate_user_input`, identical in both
variants).  Python exceptions become `Except.error`. -/

def VALID_SKILL_LEVELS : List String := ["beginner", "intermediate", "advanced"]

def validate_user_input (skill_level tech_stack project_type : String) :
    Except String (String × String × String) :=
  let s := pyLower (pyStrip skill_level)
  let t := pyLower (pyStrip tech_stack)
  let p := pyLower (pyStrip project_type)
  if s = "" ∨ ¬ VALID_SKILL_LEVELS.contains s then
    .error "Skill level must be one of beginner, intermediate, advanced"
  else if t = "" then
    .error "Tech stack cannot be empty"
  else if p = "" then
    .error "Project type cannot be empty"
  else
    .ok (s, t, p)

/-! ## Data loading (`load_project_data`, identical in both variants)

The filesystem interaction is abstracted as the outcome of the
existence check plus `pd.read_csv`; the function body raises / propagates
inside a `try`, and the `except Exception` handler turns every failure
into an empty table. -/

inductive CsvReadOutcome where
  | missingFile
  | readFailure (msg : String)
  | readOk (rows : List Row)
deriving DecidableEq

/-- The `try` block: raise `FileNotFoundError` when the file is absent,
propagate a `pd.read_csv` failure, otherwise produce the table. -/
def load_body : CsvReadOutcome → Except String (List Row)
  | .missingFile => .error "file not found"
  | .readFailure m => .error m
  | .readOk rows => .ok rows

/-- `load_project_data`: the `except Exception` handler catches every
failure of the body and returns an empty table. -/
def load_project_data (o : CsvReadOutcome) : List Row :=
  match load_body o with
  | .ok rows => rows
  | .error _ => []

/-! ## Roadmap generation (`generate_roadmap` of src/recomen.py)

The HTTP layer is abstracted as an outcome: either a transport failure
(`requests.RequestException` from `requests.post`, including timeouts) or
a response carrying a status code and a decoded JSON body (`none` for an
undecodable body: `response.json()` raises `requests.JSONDecodeError`,
a subclass of `RequestException`, hence caught).  Python values reachable
from a decoded body are modelled by `Json`; uncaught Python exceptions
(`KeyError`, `AttributeError`, `TypeError`, `IndexError`) are `.error`. -/

inductive Json where
  | null
  | bool (b : Bool)
  | num (n : Int)
  | str (s : String)
  | arr (elems : List Json)
  | obj (fields : List (String × Json))

inductive HttpOutcome where
  | transportError (msg : String)
  | response (status : Nat) (body : Option Json)

inductive PyErr where
  | keyErr (msg : String)
  | attrErr (msg : String)
  | typeErr (msg : String)
  | indexErr (msg : String)

/-- Python truthiness of a decoded JSON value (`if result else ...`). -/
def truthy : Json → Bool
  | .null => false
  | .bool b => b
  | .num n => n ≠ 0
  | .str s => s ≠ ""
  | .arr es => !es.isEmpty
  | .obj fs => !fs.isEmpty

/-- Python `result[0]` on a decoded JSON value. -/
def pyIndexZero : Json → Except PyErr Json
  | .arr [] => .error (.indexErr "list index out of range")
  | .arr (x :: _) => .ok x
  | .obj _ => .error (.keyErr "0")
  | .str s =>
    match s.data with
    | [] => .error (.indexErr "string index out of range")
    | c :: _ => .ok (.str (String.singleton c))
  | _ => .error (.typeErr "object is not subscriptable")

/-- Python `x.get(key, default)`: only dicts have `.get`. -/
def pyDictGet (x : Json) (key : String) (dflt : Json) : Except PyErr Json :=
  match x with
  | .obj fields =>
    match fields.lookup key with
    | some v => .ok v
    | none => .ok dflt
  | _ => .error (.attrErr "object has no attribute get")

/-- `raise_for_status` raises `requests.HTTPError` exactly for 4xx/5xx. -/
def badStatus (status : Nat) : Bool := 400 ≤ status ∧ status < 600

def errorString (details : String) : String :=
  "Error: Unable to generate roadmap - " ++ details

/-- `generate_roadmap` of src/recomen.py, as a function of the HTTP
outcome.  The `except requests.RequestException` handler converts
transport failures, 4xx/5xx statuses and JSON-decode failures into the
`"Error: ..."` string; exceptions raised while picking the payload apart
(`result[0].get(...)`) are not `RequestException`s and propagate. -/
def generate_roadmap (o : HttpOutcome) : Except PyErr Json :=
  match o with
  | .transportError msg => .ok (.str (errorString msg))
  | .response status body =>
    if badStatus status then
      .ok (.str (errorString (toString status ++ " Error")))
    else
      match body with
      | none => .ok (.str (errorString "Expecting value"))
      | some result =>
        if truthy result then
          match pyIndexZero result with
          | .error e => .error e
          | .ok first => pyDictGet first "generated_text" (.str "No roadmap generated.")
        else
          .ok (.str "No roadmap generated.")

/-! ## The surrounding flows the error-handling claims talk about -/

inductive ConsoleOutcome where
  | exited (code : Nat)
  | returned (prefs : String × String × String)
deriving DecidableEq

/-- `get_user_preferences` of src/recomen.py, as a function of the three
strings typed at the prompts: `except ValueError` around the validator
calls `sys.exit(1)`. -/
def get_user_preferences (skill_level tech_stack project_type : String) :
    ConsoleOutcome :=
  match validate_user_input skill_level tech_stack project_type with
  | .ok prefs => .returned prefs
  | .error _ => .exited 1

/-- The recommendation phase of src/recomen.py `main`: collect and
validate preferences, then select on the validated tech stack.  `none`
when `get_user_preferences` terminated the process. -/
def console_recommend (data : List Row)
    (skill_level tech_stack project_type : String) :
    Option (Except String (List Row)) :=
  match get_user_preferences skill_level tech_stack project_type with
  | .exited _ => none
  | .returned (_, t, _) => some (recommend_projects data t 5)

inductive WebOutcome where
  | errorShown (msg : String)
  | rendered (rows : List Row)
  | uncaught (msg : String)
deriving DecidableEq

/-- The button handler of src/unnamed/part_000 `main`: `except ValueError`
around validation shows `st.error` and returns normally (the process
stays alive and the user can resubmit); on valid input it runs the
random-order selector and renders the result. -/
def web_submit (shuffle : List Row → List Row) (data : List Row)
    (skill_level tech_stack project_type : String) : WebOutcome :=
  match validate_user_input skill_level tech_stack project_type with
  | .error m => .errorShown ("Invalid input: " ++ m)
  | .ok (_, t, _) =>
    match recommend_projects_random shuffle data t 5 with
    | .ok rows => .rendered rows
    | .error e => .uncaught e

/-! ## Auxiliary definitions for the statements -/

/-- Descending-stars order between rows. -/
def starsGe (a b : Row) : Prop := b.stars ≤ a.stars

/-- The compiled form of a pattern with only plain characters. -/
def litPieces (l : List Char) : List Piece :=
  l.map (fun c => ⟨.lit c, .one⟩)

/-- Modelled from the spec: "row is included iff its language field,
lower-cased, contains tech_stack as a substring", followed by the
stars-descending truncation.  This is the spec's literal-substring
reading of the selector, for comparison with `recommend_projects`. -/
def select_literal (data : List Row) (tech_stack : String) (top_n : Nat) : List Row :=
  (sortStarsDesc (data.filter (fun r =>
    match r.language with
    | none => false
    | some l => strContains (pyLower l) tech_stack))).take top_n

/-- A payload shape `result[0].get("generated_text", ...)` survives:
either falsy, or a list whose first element is an object whose
`generated_text` field (when present) is a string. -/
def shapeOk : Json → Bool
  | .arr [] => true
  | .arr (.obj fields :: _) =>
    match fields.lookup "generated_text" with
    | none => true
    | some (.str _) => true
    | some _ => false
  | .arr (_ :: _) => false
  | j => !truthy j

/-- Sample rows used to instantiate the theorems on concrete inputs. -/
def rowPy100 : Row := ⟨"A", none, 100, some "Python", "u1"⟩

def rowPy500 : Row := ⟨"B", none, 500, some "python", "u2"⟩

def rowGo50 : Row := ⟨"C", none, 50, some "Go", "u3"⟩

def rowCz : Row := ⟨"Z", none, 1, some "cz", "u4"⟩

def rowNoLang : Row := ⟨"N", none, 7, none, "u5"⟩

/-! ## Lemmas about the stable descending sort -/

lemma perm_insertRow (x : Row) (l : List Row) : (insertRow x l).Perm (x :: l) := by
  induction l with
  | nil => exact List.Perm.refl _
  | cons y ys ih =>
    simp only [insertRow]
    split_ifs
    · exact List.Perm.refl _
    · exact (ih.cons y).trans (List.Perm.swap x y ys)

lemma mem_insertRow (z x : Row) (l : List Row) :
    z ∈ insertRow x l ↔ z = x ∨ z ∈ l := by
  rw [(perm_insertRow x l).mem_iff]
  simp

lemma sortStarsDesc_perm (l : List Row) : (sortStarsDesc l).Perm l := by
  induction l with
  | nil => exact List.Perm.refl _
  | cons x xs ih => exact (perm_insertRow x (sortStarsDesc xs)).trans (ih.cons x)

lemma pairwise_insertRow (x : Row) :
    ∀ l : List Row, l.Pairwise starsGe → (insertRow x l).Pairwise starsGe := by
  intro l
  induction l with
  | nil =>
    intro _
    simp [insertRow, starsGe]
  | cons y ys ih =>
    intro h
    rw [List.pairwise_cons] at h
    obtain ⟨hy, hys⟩ := h
    simp only [insertRow]
    split_ifs with hle
    · rw [List.pairwise_cons]
      refine ⟨?_, ?_⟩
      · intro z hz
        rcases List.mem_cons.mp hz with rfl | hz
        · exact hle
        · exact le_trans (hy z hz) hle
      · rw [List.pairwise_cons]
        exact ⟨hy, hys⟩
    · rw [List.pairwise_cons]
      refine ⟨?_, ih hys⟩
      intro z hz
      rcases (mem_insertRow z x ys).mp hz with rfl | hz
      · exact le_of_lt (Nat.lt_of_not_le hle)
      · exact hy z hz

lemma sortStarsDesc_pairwise (l : List Row) : (sortStarsDesc l).Pairwise starsGe := by
  induction l with
  | nil => simp [sortStarsDesc]
  | cons x xs ih => exact pairwise_insertRow x _ ih

lemma filter_insertRow (x : Row) (s : Nat) :
    ∀ l : List Row,
      (insertRow x l).filter (fun r => r.stars == s) =
        if x.stars = s then x :: l.filter (fun r => r.stars == s)
        else l.filter (fun r => r.stars == s) := by
  intro l
  induction l with
  | nil =>
    simp only [insertRow]
    split_ifs with h <;> simp [List.filter_cons, h]
  | cons y ys ih =>
    simp only [insertRow]
    by_cases hle : y.stars ≤ x.stars
    · rw [if_pos hle]
      by_cases hx : x.stars = s
      · rw [if_pos hx, List.filter_cons, if_pos (by simpa using hx)]
      · rw [if_neg hx, List.filter_cons, if_neg (by simpa using hx)]
    · rw [if_neg hle]
      by_cases hx : x.stars = s
      · have hy : ¬ (y.stars = s) := by
          intro hh
          rw [← hx] at hh
          exact hle (le_of_eq hh)
        rw [if_pos hx, List.filter_cons, if_neg (by simpa using hy), ih, if_pos hx,
          List.filter_cons, if_neg (by simpa using hy)]
      · rw [if_neg hx, List.filter_cons, ih, if_neg hx, List.filter_cons]

lemma filter_sortStarsDesc (s : Nat) (l : List Row) :
    (sortStarsDesc l).filter (fun r => r.stars == s) =
      l.filter (fun r => r.stars == s) := by
  induction l with
  | nil => rfl
  | cons x xs ih =>
    show (insertRow x (sortStarsDesc xs)).filter _ = _
    rw [filter_insertRow, List.filter_cons]
    by_cases hx : x.stars = s
    · rw [if_pos hx, if_pos (by simpa using hx), ih]
    · rw [if_neg hx, if_neg (by simpa using hx), ih]

/-! ## Lemmas about the validator -/

lemma validate_ok_shape (s t p : String) (v : String × String × String)
    (h : validate_user_input s t p = .ok v) :
    v = (pyLower (pyStrip s), pyLower (pyStrip t), pyLower (pyStrip p)) := by
  simp only [validate_user_input] at h
  split_ifs at h
  all_goals first
  | exact Except.noConfusion h
  | (injection h with h'; exact h'.symm)

lemma contains_empty_false : VALID_SKILL_LEVELS.contains "" = false := by decide

/-- C4: `validate_user_input` fails exactly when the trimmed, lower-cased
skill level is outside beginner/intermediate/advanced or the trimmed,
lower-cased tech stack or project type is empty; on success it returns
the three inputs trimmed and lower-cased.  The embedding is a pure
function, reflecting that the validator performs no I/O. -/
theorem validate_user_input_spec (s t p : String) :
    ((validate_user_input s t p).isOk = false ↔
      (VALID_SKILL_LEVELS.contains (pyLower (pyStrip s)) = false
        ∨ pyLower (pyStrip t) = "" ∨ pyLower (pyStrip p) = ""))
    ∧ (VALID_SKILL_LEVELS.contains (pyLower (pyStrip s)) = true →
        pyLower (pyStrip t) ≠ "" → pyLower (pyStrip p) ≠ "" →
        validate_user_input s t p =
          .ok (pyLower (pyStrip s), pyLower (pyStrip t), pyLower (pyStrip p))) := by
  constructor
  · simp only [validate_user_input]
    by_cases h1 : pyLower (pyStrip s) = ""
        ∨ ¬ VALID_SKILL_LEVELS.contains (pyLower (pyStrip s)) = true
    · rw [if_pos h1]
      constructor
      · intro _
        left
        rcases h1 with h1 | h1
        · rw [h1]
          exact contains_empty_false
        · exact Bool.eq_false_iff.mpr h1
      · intro _
        rfl
    · rw [if_neg h1]
      push_neg at h1
      by_cases h2 : pyLower (pyStrip t) = ""
      · rw [if_pos h2]
        constructor
        · intro _
          right; left
          exact h2
        · intro _
          rfl
      · rw [if_neg h2]
        by_cases h3 : pyLower (pyStrip p) = ""
        · rw [if_pos h3]
          constructor
          · intro _
            right; right
            exact h3
          · intro _
            rfl
        · rw [if_neg h3]
          constructor
          · intro hfalse
            exact Bool.noConfusion hfalse
          · intro hc
            rcases hc with hc | hc | hc
            · rw [h1.2] at hc
              exact Bool.noConfusion hc
            · exact absurd hc h2
            · exact absurd hc h3
  · intro hs ht hp
    simp only [validate_user_input]
    have h1 : ¬ (pyLower (pyStrip s) = ""
        ∨ ¬ VALID_SKILL_LEVELS.contains (pyLower (pyStrip s)) = true) := by
      push_neg
      refine ⟨?_, hs⟩
      intro h0
      rw [h0, contains_empty_false] at hs
      exact Bool.noConfusion hs
    rw [if_neg h1, if_neg ht, if_neg hp]

/-- Witness for C4 at the spec's end-to-end scenario 4. -/
theorem validate_user_input_spec_witness :
    validate_user_input "Beginner " " Python" "ml" = .ok ("beginner", "python", "ml") :=
  (validate_user_input_spec "Beginner " " Python" "ml").2 (by decide) (by decide) (by decide)

/-- C6: `load_project_data` never raises: every failing read outcome
yields the empty table and a successful read yields the table read. -/
theorem load_project_data_fails_closed :
    (∀ o : CsvReadOutcome, (∃ e, load_body o = .error e) → load_project_data o = [])
    ∧ (∀ rows, load_project_data (.readOk rows) = rows) := by
  constructor
  · intro o he
    obtain ⟨e, he⟩ := he
    unfold load_project_data
    rw [he]
  · intro rows
    rfl

/-- Witness for C6: a missing file yields the empty table and a
successful read yields its rows. -/
theorem load_project_data_fails_closed_witness :
    load_project_data .missingFile = [] ∧
      load_project_data (.readOk [rowPy100]) = [rowPy100] :=
  ⟨load_project_data_fails_closed.1 .missingFile ⟨"file not found", rfl⟩,
   load_project_data_fails_closed.2 [rowPy100]⟩

/-- C8 counterexample: in the console variant (src/recomen.py), an
invalid skill level makes `get_user_preferences` terminate the process
with exit code 1, so the user cannot retry without restarting. -/
theorem console_invalid_input_exits_cex :
    get_user_preferences "expert" "python" "ml" = .exited 1 := by decide

/-- C8 amended: in the web variant (src/unnamed/part_000), every
validation error is caught by the button handler and surfaced as an
on-page message; the handler returns normally, so the process survives
and the user can resubmit. -/
theorem web_validation_error_recovered (shuffle : List Row → List Row)
    (data : List Row) (skill tech ptype e : String)
    (h : validate_user_input skill tech ptype = .error e) :
    web_submit shuffle data skill tech ptype = .errorShown ("Invalid input: " ++ e) := by
  unfold web_submit
  rw [h]

/-- Witness for C8 amended at a concrete invalid preference. -/
theorem web_validation_error_recovered_witness :
    web_submit id [] "expert" "python" "ml" =
      .errorShown "Invalid input: Skill level must be one of beginner, intermediate, advanced" :=
  web_validation_error_recovered id [] "expert" "python" "ml"
    "Skill level must be one of beginner, intermediate, advanced" (by decide)

/-- C9: the recommendation phase ignores the project type: two runs of
the console flow that differ only in a validator-accepted project type
produce identical recommendations. -/
theorem recommendations_independent_of_project_type
    (data : List Row) (skill tech p1 p2 : String)
    (h1 : (validate_user_input skill tech p1).isOk = true)
    (h2 : (validate_user_input skill tech p2).isOk = true) :
    console_recommend data skill tech p1 = console_recommend data skill tech p2 := by
  cases hv1 : validate_user_input skill tech p1 with
  | error e =>
    rw [hv1] at h1
    exact Bool.noConfusion h1
  | ok v1 =>
    cases hv2 : validate_user_input skill tech p2 with
    | error e =>
      rw [hv2] at h2
      exact Bool.noConfusion h2
    | ok v2 =>
      have e1 := validate_ok_shape skill tech p1 v1 hv1
      have e2 := validate_ok_shape skill tech p2 v2 hv2
      subst e1
      subst e2
      simp only [console_recommend, get_user_preferences, hv1, hv2]

/-- Witness for C9 at two concrete accepted project types. -/
theorem recommendations_independent_of_project_type_witness :
    console_recommend [rowPy100] "beginner" "python" "ml" =
      console_recommend [rowPy100] "beginner" "python" "web dev" :=
  recommendations_independent_of_project_type [rowPy100] "beginner" "python"
    "ml" "web dev" (by decide) (by decide)

/-- C3: whenever either selector variant returns a result, it has at most
`top_n` rows, and exactly `min top_n matching_count` rows as soon as at
least one row matches the filter (for the random variant, under any
length-preserving shuffle). -/
theorem select_count_bound (data : List Row) (tech_stack : String)
    (top_n : Nat) (ps : List Piece)
    (hp : parsePattern tech_stack = .ok ps) :
    (∀ result, recommend_projects data tech_stack top_n = .ok result →
      result.length ≤ top_n ∧
        (0 < (data.filter (fun r => langMatches ps r.language)).length →
          result.length =
            min top_n (data.filter (fun r => langMatches ps r.language)).length))
    ∧ ∀ shuffle : List Row → List Row, (∀ l, (shuffle l).length = l.length) →
        ∀ result, recommend_projects_random shuffle data tech_stack top_n = .ok result →
          result.length ≤ top_n ∧
            (0 < (data.filter (fun r => langMatches ps r.language)).length →
              result.length =
                min top_n (data.filter (fun r => langMatches ps r.language)).length) := by
  constructor
  · intro result hr
    cases hd : data.isEmpty with
    | true =>
      have hdata : data = [] := List.isEmpty_iff.mp hd
      subst hdata
      simp only [recommend_projects, List.isEmpty_nil, if_true] at hr
      injection hr with hr
      subst hr
      simp
    | false =>
      simp only [recommend_projects, hd, Bool.false_eq_true, if_false, hp] at hr
      injection hr with hr
      subst hr
      rw [List.length_take, (sortStarsDesc_perm _).length_eq]
      constructor
      · exact Nat.min_le_left _ _
      · intro _
        rfl
  · intro shuffle hlen result hr
    cases hd : data.isEmpty with
    | true =>
      have hdata : data = [] := List.isEmpty_iff.mp hd
      subst hdata
      simp only [recommend_projects_random, List.isEmpty_nil, if_true] at hr
      injection hr with hr
      subst hr
      simp
    | false =>
      simp only [recommend_projects_random, hd, Bool.false_eq_true, if_false, hp] at hr
      cases hf : (data.filter (fun r => langMatches ps r.language)).isEmpty with
      | true =>
        rw [hf] at hr
        simp only [if_true] at hr
        injection hr with hr
        subst hr
        have h0 : (data.filter (fun r => langMatches ps r.language)).length = 0 := by
          rw [List.isEmpty_iff.mp hf]
          rfl
        simp [h0]
      | false =>
        rw [hf] at hr
        simp only [Bool.false_eq_true, if_false] at hr
        injection hr with hr
        subst hr
        have hL : (shuffle (data.filter (fun r => langMatches ps r.language))).length =
            (data.filter (fun r => langMatches ps r.language)).length := hlen _
        rw [List.length_take, hL]
        omega

/-- Witness for C3: the stars-descending selector on a two-row table with
one match and `top_n = 1`. -/
theorem select_count_bound_witness :
    ([rowGo50] : List Row).length ≤ 1 ∧
      (0 < (([rowPy100, rowGo50] : List Row).filter
          (fun r => langMatches [⟨.lit 'g', .one⟩, ⟨.lit 'o', .one⟩] r.language)).length →
        ([rowGo50] : List Row).length =
          min 1 (([rowPy100, rowGo50] : List Row).filter
            (fun r => langMatches [⟨.lit 'g', .one⟩, ⟨.lit 'o', .one⟩] r.language)).length) :=
  (select_count_bound [rowPy100, rowGo50] "go" 1
    [⟨.lit 'g', .one⟩, ⟨.lit 'o', .one⟩] (by decide)).1 [rowGo50] (by decide)

/-- C5: in the stars-descending variant, every returned list is sorted by
descending star count, and for every star value the returned rows with
that star count form an initial segment of the matching rows with that
star count in table order (so ties keep their original relative order);
on the spec's scenario-1 table the result is the 500-star row followed by
the 100-star row. -/
theorem select_stars_desc_ordering :
    (∀ (data : List Row) (tech_stack : String) (top_n : Nat)
        (ps : List Piece) (result : List Row),
      parsePattern tech_stack = .ok ps →
      recommend_projects data tech_stack top_n = .ok result →
      result.Pairwise starsGe ∧
        ∀ s : Nat, ∃ rest,
          result.filter (fun r => r.stars == s) ++ rest =
            (data.filter (fun r => langMatches ps r.language)).filter
              (fun r => r.stars == s))
    ∧ recommend_projects [rowPy100, rowPy500, rowGo50] "python" 5 =
        .ok [rowPy500, rowPy100] := by
  constructor
  · intro data tech_stack top_n ps result hp hr
    cases hd : data.isEmpty with
    | true =>
      have hdata : data = [] := List.isEmpty_iff.mp hd
      subst hdata
      simp only [recommend_projects, List.isEmpty_nil, if_true] at hr
      injection hr with hr
      subst hr
      constructor
      · exact List.Pairwise.nil
      · intro s
        exact ⟨[], rfl⟩
    | false =>
      simp only [recommend_projects, hd, Bool.false_eq_true, if_false, hp] at hr
      injection hr with hr
      subst hr
      constructor
      · exact List.Pairwise.sublist (List.take_sublist top_n _) (sortStarsDesc_pairwise _)
      · intro s
        refine ⟨(List.drop top_n
          (sortStarsDesc (data.filter (fun r => langMatches ps r.language)))).filter
            (fun r => r.stars == s), ?_⟩
        rw [← List.filter_append, List.take_append_drop, filter_sortStarsDesc]
  · decide

/-- Witness for C5: the scenario-1 result is sorted by descending stars. -/
theorem select_stars_desc_ordering_witness :
    ([rowPy500, rowPy100] : List Row).Pairwise starsGe :=
  (select_stars_desc_ordering.1 [rowPy100, rowPy500, rowGo50] "python" 5
    (litPieces "python".data) [rowPy500, rowPy100] (by decide) (by decide)).1

/-! ## Literal patterns reduce to substring containment -/

lemma parseLoop_literal :
    ∀ (l : List Char) (acc : List Piece),
      (∀ c ∈ l, plainChar c = true) →
      parseLoop l acc = .ok (acc.reverse ++ litPieces l) := by
  intro l
  induction l with
  | nil =>
    intro acc _
    simp [parseLoop, litPieces]
  | cons c cs ih =>
    intro acc h
    have hc : plainChar c = true := h c (List.mem_cons_self c cs)
    have hcs : ∀ d ∈ cs, plainChar d = true := fun d hd => h d (List.mem_cons_of_mem c hd)
    have hmem : ¬ (c ∈ specialChars) := by
      intro hin
      have hcon : specialChars.contains c = true := List.elem_eq_true_of_mem hin
      rw [plainChar, hcon] at hc
      exact Bool.noConfusion hc
    have h1 : ¬ (c = '.') := fun hh => hmem (by rw [hh]; decide)
    have h2 : ¬ (c = '*' ∨ c = '+' ∨ c = '?') := by
      rintro (hh | hh | hh) <;> exact hmem (by rw [hh]; decide)
    have h3 : ¬ (['^', '$', '{', '}', '[', ']', '\\', '|', '(', ')'].contains c = true) := by
      intro hh
      have hin := List.mem_of_elem_eq_true hh
      apply hmem
      fin_cases hin <;> decide
    simp only [parseLoop]
    rw [if_neg h1, if_neg h2, if_neg h3, ih _ hcs]
    simp [litPieces, List.append_assoc]

lemma matchHere_lit : ∀ (p s : List Char),
    matchHere (litPieces p) s = leadsChars p s := by
  intro p
  induction p with
  | nil =>
    intro s
    rfl
  | cons c cs ih =>
    intro s
    cases s with
    | nil => rfl
    | cons d ds =>
      simp only [litPieces] at ih ⊢
      simp [matchHere, leadsChars, bmatch, ih]

lemma searchFrom_lit : ∀ (s p : List Char),
    searchFrom (litPieces p) s = containsChars s p := by
  intro s
  induction s with
  | nil =>
    intro p
    simp [searchFrom, containsChars, matchHere_lit]
  | cons c cs ih =>
    intro p
    simp [searchFrom, containsChars, matchHere_lit, ih]

lemma parsePattern_literal (tech_stack : String)
    (hplain : ∀ c ∈ tech_stack.data, plainChar c = true) :
    parsePattern tech_stack = .ok (litPieces tech_stack.data) := by
  have h := parseLoop_literal tech_stack.data [] hplain
  simpa [parsePattern] using h

lemma langMatches_lit_substring (tech_stack : String) (r : Row)
    (h : langMatches (litPieces tech_stack.data) r.language = true) :
    r.language.isSome = true ∧
      strContains (pyLower (r.language.getD "")) tech_stack = true := by
  cases hl : r.language with
  | none =>
    rw [hl] at h
    exact Bool.noConfusion h
  | some l =>
    rw [hl] at h
    refine ⟨rfl, ?_⟩
    simp only [Option.getD]
    rw [strContains, ← searchFrom_lit]
    exact h

/-- C1 amended: for every tech_stack made only of characters the regex
engine treats literally, both selector variants return only rows whose
language field is present and whose lower-cased language contains
tech_stack as a substring; rows with an absent language are excluded
without an error. -/
theorem select_substring_filter (data : List Row) (tech_stack : String)
    (top_n : Nat)
    (hplain : ∀ c ∈ tech_stack.data, plainChar c = true) :
    (∀ result, recommend_projects data tech_stack top_n = .ok result →
      ∀ r ∈ result, r.language.isSome = true ∧
        strContains (pyLower (r.language.getD "")) tech_stack = true)
    ∧ ∀ shuffle : List Row → List Row, (∀ l x, x ∈ shuffle l → x ∈ l) →
        ∀ result, recommend_projects_random shuffle data tech_stack top_n = .ok result →
          ∀ r ∈ result, r.language.isSome = true ∧
            strContains (pyLower (r.language.getD "")) tech_stack = true := by
  have hp := parsePattern_literal tech_stack hplain
  constructor
  · intro result hr r hmem
    cases hd : data.isEmpty with
    | true =>
      have hdata : data = [] := List.isEmpty_iff.mp hd
      subst hdata
      simp only [recommend_projects, List.isEmpty_nil, if_true] at hr
      injection hr with hr
      subst hr
      exact absurd hmem (List.not_mem_nil r)
    | false =>
      simp only [recommend_projects, hd, Bool.false_eq_true, if_false, hp] at hr
      injection hr with hr
      subst hr
      have h1 : r ∈ sortStarsDesc (data.filter
          (fun r => langMatches (litPieces tech_stack.data) r.language)) :=
        (List.take_sublist top_n _).subset hmem
      have h2 : r ∈ data.filter (fun r => langMatches (litPieces tech_stack.data) r.language) :=
        (sortStarsDesc_perm _).mem_iff.mp h1
      exact langMatches_lit_substring tech_stack r (List.mem_filter.mp h2).2
  · intro shuffle hsh result hr r hmem
    cases hd : data.isEmpty with
    | true =>
      have hdata : data = [] := List.isEmpty_iff.mp hd
      subst hdata
      simp only [recommend_projects_random, List.isEmpty_nil, if_true] at hr
      injection hr with hr
      subst hr
      exact absurd hmem (List.not_mem_nil r)
    | false =>
      simp only [recommend_projects_random, hd, Bool.false_eq_true, if_false, hp] at hr
      cases hf : (data.filter
          (fun r => langMatches (litPieces tech_stack.data) r.language)).isEmpty with
      | true =>
        rw [hf] at hr
        simp only [if_true] at hr
        injection hr with hr
        subst hr
        exact absurd hmem (List.not_mem_nil r)
      | false =>
        rw [hf] at hr
        simp only [Bool.false_eq_true, if_false] at hr
        injection hr with hr
        subst hr
        have h1 : r ∈ shuffle (data.filter
            (fun r => langMatches (litPieces tech_stack.data) r.language)) :=
          (List.take_sublist _ _).subset hmem
        have h2 := hsh _ r h1
        exact langMatches_lit_substring tech_stack r (List.mem_filter.mp h2).2

/-- C1 counterexample: with the validator-accepted tech_stack "c." the
stars-descending selector returns the row whose lower-cased language
"cz" does not contain "c." as a substring — the mask is regular
expression search, not literal containment. -/
theorem select_not_substring_cex :
    recommend_projects [rowCz] "c." 5 = .ok [rowCz] ∧
      strContains (pyLower "cz") "c." = false := by
  exact ⟨by decide, by decide⟩

/-- Witness for C1 amended: on a table with a matching row and a
language-less row, the returned row has a language containing "python". -/
theorem select_substring_filter_witness :
    rowPy100.language.isSome = true ∧
      strContains (pyLower (rowPy100.language.getD "")) "python" = true :=
  (select_substring_filter [rowPy100, rowNoLang] "python" 5 (by decide)).1
    [rowPy100] (by decide) rowPy100 (by decide)

/-- C2 amended: `generate_roadmap` converts every transport failure,
every 4xx/5xx status and every undecodable body into the
"Error: Unable to generate roadmap - ..." string without raising, and on
a success status it returns a string without raising provided the
decoded payload is falsy or a list whose first element is an object
whose generated_text field (if present) is a string; payloads of other
shapes make it raise (`.error`). -/
theorem generate_roadmap_failure_string :
    (∀ msg, generate_roadmap (.transportError msg) = .ok (.str (errorString msg)))
    ∧ (∀ status body, badStatus status = true →
        generate_roadmap (.response status body) =
          .ok (.str (errorString (toString status ++ " Error"))))
    ∧ (∀ status, badStatus status = false →
        generate_roadmap (.response status none) =
          .ok (.str (errorString "Expecting value")))
    ∧ (∀ status j, badStatus status = false → shapeOk j = true →
        ∃ s, generate_roadmap (.response status (some j)) = .ok (.str s)) := by
  refine ⟨fun msg => rfl, ?_, ?_, ?_⟩
  · intro status body h
    simp only [generate_roadmap]
    rw [if_pos h]
  · intro status h
    simp only [generate_roadmap]
    rw [if_neg (by simp [h])]
  · intro status j h hj
    simp only [generate_roadmap]
    rw [if_neg (by simp [h])]
    cases j with
    | null => exact ⟨"No roadmap generated.", by simp [truthy]⟩
    | bool b =>
      have hb : b = false := by simpa [shapeOk, truthy] using hj
      subst hb
      exact ⟨"No roadmap generated.", by simp [truthy]⟩
    | num n =>
      have hn : n = 0 := by simpa [shapeOk, truthy] using hj
      subst hn
      exact ⟨"No roadmap generated.", by simp [truthy]⟩
    | str s =>
      have hs : s = "" := by simpa [shapeOk, truthy] using hj
      subst hs
      exact ⟨"No roadmap generated.", by simp [truthy]⟩
    | obj fs =>
      have hf : fs = [] := by simpa [shapeOk, truthy] using hj
      subst hf
      exact ⟨"No roadmap generated.", by simp [truthy]⟩
    | arr es =>
      cases es with
      | nil => exact ⟨"No roadmap generated.", by simp [truthy]⟩
      | cons x xs =>
        cases x with
        | obj fields =>
          rw [if_pos (by simp [truthy])]
          simp only [pyIndexZero, pyDictGet]
          cases hlk : fields.lookup "generated_text" with
          | none => exact ⟨"No roadmap generated.", by simp [hlk]⟩
          | some v =>
            cases v with
            | str s => exact ⟨s, by simp [hlk]⟩
            | null => simp [shapeOk, hlk] at hj
            | bool b => simp [shapeOk, hlk] at hj
            | num n => simp [shapeOk, hlk] at hj
            | arr es2 => simp [shapeOk, hlk] at hj
            | obj fs2 => simp [shapeOk, hlk] at hj
        | null => simp [shapeOk] at hj
        | bool b => simp [shapeOk] at hj
        | num n => simp [shapeOk] at hj
        | str s => simp [shapeOk] at hj
        | arr es2 => simp [shapeOk] at hj

/-- C2 counterexample: on a success response whose decoded payload is the
non-empty object with field x, `result[0]` raises KeyError, which the
except clause (limited to RequestException) does not catch: the call
raises to its caller instead of returning a string. -/
theorem generate_roadmap_raises_cex :
    generate_roadmap (.response 200 (some (.obj [("x", .num 1)]))) =
      .error (.keyErr "0") := rfl

/-- Witness for C2 amended at a concrete 5xx response and a concrete
undecodable body. -/
theorem generate_roadmap_failure_string_witness :
    generate_roadmap (.response 503 (some (.arr []))) =
        .ok (.str (errorString "503 Error")) ∧
      generate_roadmap (.response 200 none) =
        .ok (.str (errorString "Expecting value")) :=
  ⟨generate_roadmap_failure_string.2.1 503 (some (.arr [])) (by decide),
   generate_roadmap_failure_string.2.2.1 200 (by decide)⟩

/-- C7 amended: on a success status, a falsy decoded payload (empty
list, empty object, null, empty string, zero, false) or a list whose
first element is an object without the generated_text field yields the
sentinel "No roadmap generated."; an undecodable body instead yields the
"Error: ..." string and other unexpected shapes raise. -/
theorem generate_roadmap_sentinel :
    (∀ status j, badStatus status = false → truthy j = false →
      generate_roadmap (.response status (some j)) = .ok (.str "No roadmap generated."))
    ∧ (∀ (status : Nat) (fields : List (String × Json)) (rest : List Json),
        badStatus status = false →
        fields.lookup "generated_text" = none →
        generate_roadmap (.response status (some (.arr (.obj fields :: rest)))) =
          .ok (.str "No roadmap generated.")) := by
  constructor
  · intro status j h ht
    simp only [generate_roadmap]
    rw [if_neg (by simp [h]), ht]
    simp
  · intro status fields rest h hlk
    simp only [generate_roadmap]
    rw [if_neg (by simp [h]), if_pos (by simp [truthy])]
    simp only [pyIndexZero, pyDictGet]
    rw [hlk]

/-- C7 counterexample: a success status with an undecodable JSON body is
a malformed payload, but the returned string is the "Error: ..." string,
not the sentinel "No roadmap generated.". -/
theorem generate_roadmap_not_sentinel_cex :
    generate_roadmap (.response 200 none) = .ok (.str (errorString "Expecting value")) ∧
      errorString "Expecting value" ≠ "No roadmap generated." :=
  ⟨rfl, by decide⟩

/-- Witness for C7 amended: empty candidate list and missing text field
both yield the sentinel. -/
theorem generate_roadmap_sentinel_witness :
    generate_roadmap (.response 200 (some (.arr []))) = .ok (.str "No roadmap generated.") ∧
      generate_roadmap (.response 200 (some (.arr [.obj [("foo", .num 1)]]))) =
        .ok (.str "No roadmap generated.") :=
  ⟨generate_roadmap_sentinel.1 200 (.arr []) (by decide) rfl,
   generate_roadmap_sentinel.2 200 [("foo", .num 1)] [] (by decide) rfl⟩

/-- C10: the language filter interprets tech_stack as a regular
expression, not a literal substring: the validator-accepted tech stack
"c." selects the row with language "cz" although "c." is not a substring
of "cz" (so the result differs from the literal-substring selection,
which is empty), and the validator-accepted "c++" makes the selector
raise a pattern compile error, exactly as re.error propagates in
Python. -/
theorem select_regex_semantics :
    validate_user_input "beginner" "c." "ml" = .ok ("beginner", "c.", "ml") ∧
      recommend_projects [rowCz] "c." 5 = .ok [rowCz] ∧
      select_literal [rowCz] "c." 5 = [] ∧
      validate_user_input "beginner" "c++" "ml" = .ok ("beginner", "c++", "ml") ∧
      recommend_projects [rowCz] "c++" 5 = .error "multiple repeat" :=
  ⟨by decide, by decide, by decide, by decide, by decide⟩

end GenProject
